import Mathlib

/-!
Shallow embedding of the asynchronous checkout-authorization core of the
repository (shopping store, CIBA request storage, popup request storage,
the status/decide route handlers, the checkout route, and the two polling
loops of the chat route), together with proofs settling the spec claims.

Conventions of the embedding:
* JavaScript `Map`s and the file-backed request stores become association
  lists keyed by `String`; `storeGet`/`storeSet`/`storeDel` mirror
  `Map.get`/`Map.set`/`Map.delete` (set replaces the existing entry in
  place or appends a fresh one at the end, exactly like `Map.set`).
* Mutation of in-memory objects becomes explicit state passing: each
  operation returns its result together with the updated store.
* `Date.now()` timestamps are `Nat` milliseconds supplied as a `now`
  parameter; prices and poll intervals are exact rationals (every numeric
  value that occurs — 3.99, 5, 7.5, ..., 30 — is a small dyadic rational,
  represented exactly by JavaScript floats, so `Rat` is faithful).
* Network responses observed by the pollers become explicit oracles
  (`Nat → TokenResp`, `Nat → PopupObs`) indexed by the attempt counter.
-/

namespace App

/-! ### Shopping store (`src/lib/shopping-store.ts`) -/

structure Product where
  id : String
  name : String
  description : String
  price : ℚ
deriving DecidableEq, Repr

structure CartItem where
  productId : String
  quantity : ℤ
deriving DecidableEq, Repr

structure Cart where
  userId : String
  items : List CartItem
deriving DecidableEq, Repr

/-- The `PRODUCTS` catalog of `shopping-store.ts` (20 grocery items). -/
def PRODUCTS : List Product :=
  [ ⟨"1", "Milk", "Fresh whole milk, 1 gallon", 3.99⟩,
    ⟨"2", "Bread", "Whole wheat bread loaf", 2.49⟩,
    ⟨"3", "Eggs", "Large eggs, dozen", 2.99⟩,
    ⟨"4", "Bananas", "Fresh bananas, per pound", 0.79⟩,
    ⟨"5", "Chicken Breast", "Boneless skinless chicken breast, per pound", 6.99⟩,
    ⟨"6", "Rice", "Long grain white rice, 2 lb bag", 2.99⟩,
    ⟨"7", "Pasta", "Spaghetti pasta, 1 lb box", 1.49⟩,
    ⟨"8", "Tomatoes", "Fresh Roma tomatoes, per pound", 1.99⟩,
    ⟨"9", "Cheese", "Cheddar cheese block, 8 oz", 4.49⟩,
    ⟨"10", "Apples", "Gala apples, per pound", 1.29⟩,
    ⟨"11", "Ground Beef", "85 percent lean ground beef, per pound", 5.99⟩,
    ⟨"12", "Onions", "Yellow onions, 3 lb bag", 1.99⟩,
    ⟨"13", "Potatoes", "Russet potatoes, 5 lb bag", 3.49⟩,
    ⟨"14", "Carrots", "Baby carrots, 1 lb bag", 1.49⟩,
    ⟨"15", "Olive Oil", "Extra virgin olive oil, 16.9 fl oz", 7.99⟩,
    ⟨"16", "Cereal", "Honey Nut cereal, family size box", 4.99⟩,
    ⟨"17", "Orange Juice", "Fresh orange juice, 64 fl oz", 3.79⟩,
    ⟨"18", "Yogurt", "Greek yogurt, vanilla, 32 oz container", 5.49⟩,
    ⟨"19", "Lettuce", "Iceberg lettuce head", 1.79⟩,
    ⟨"20", "Salmon", "Atlantic salmon fillet, per pound", 12.99⟩ ]

/-- JavaScript `toLowerCase()` on the ASCII names used by the catalog. -/
def jsToLowerCase (s : String) : String := String.mk (s.data.map Char.toLower)

/-- Product resolution of `addToCart`: by exact id first, then by
case-insensitive name (`shopping-store.ts` lines 109-115). -/
def findProduct (productId : String) : Option Product :=
  match PRODUCTS.find? (fun p => p.id == productId) with
  | some p => some p
  | none => PRODUCTS.find? (fun p => jsToLowerCase p.name == jsToLowerCase productId)

/-- `getCart`: returns the user's cart, creating (and pushing) an empty
one when absent; the second component is the updated cart list. -/
def getCart (userId : String) (carts : List Cart) : Cart × List Cart :=
  match carts.find? (fun c => c.userId == userId) with
  | some c => (c, carts)
  | none => (⟨userId, []⟩, carts ++ [⟨userId, []⟩])

/-- In-place replacement of the items of the (first) cart belonging to
`userId`; models JavaScript mutating the cart object found by `getCart`. -/
def setCart : List Cart → String → List CartItem → List Cart
  | [], _, _ => []
  | c :: rest, uid, items =>
    if c.userId == uid then { c with items := items } :: rest
    else c :: setCart rest uid items

/-- Increment the quantity of the first item with the given product id;
models `existingItem.quantity += quantity` on the item found by `find`. -/
def bumpFirst : List CartItem → String → ℤ → List CartItem
  | [], _, _ => []
  | it :: rest, pid, q =>
    if it.productId == pid then { it with quantity := it.quantity + q } :: rest
    else it :: bumpFirst rest pid q

/-- `addToCart` (`shopping-store.ts` lines 106-140): resolve the product,
then either bump the existing line or push a new one. -/
def addToCart (userId productId : String) (quantity : ℤ) (carts : List Cart) :
    Bool × List Cart :=
  match findProduct productId with
  | none => (false, carts)
  | some product =>
    let found := getCart userId carts
    let items' :=
      if (found.1.items.find? (fun it => it.productId == product.id)).isSome then
        bumpFirst found.1.items product.id quantity
      else
        found.1.items ++ [⟨product.id, quantity⟩]
    (true, setCart found.2 userId items')

structure CartLine where
  product : Option Product
  quantity : ℤ
  subtotal : ℚ
deriving DecidableEq, Repr

structure CartData where
  items : List CartLine
  total : ℚ
deriving DecidableEq, Repr

/-- `getCartWithProducts`: join the cart against the catalog and sum the
subtotals; the second component is the (possibly extended) cart list. -/
def getCartWithProducts (userId : String) (carts : List Cart) :
    CartData × List Cart :=
  let found := getCart userId carts
  let lines := found.1.items.map (fun it =>
    match PRODUCTS.find? (fun p => p.id == it.productId) with
    | some p => CartLine.mk (some p) it.quantity (p.price * (it.quantity : ℚ))
    | none => CartLine.mk none it.quantity 0)
  (⟨lines, (lines.map (fun l => l.subtotal)).sum⟩, found.2)

/-- `clearCart`: empty the items of the user's cart when it exists. -/
def clearCart (userId : String) (carts : List Cart) : Bool × List Cart :=
  if (carts.find? (fun c => c.userId == userId)).isSome then
    (true, setCart carts userId [])
  else (false, carts)

/-- Shopping-store operations a client can drive the cart state with. -/
inductive StoreOp
  | add (userId productId : String) (quantity : ℤ)
  | clear (userId : String)
  | view (userId : String)
deriving DecidableEq, Repr

def runOp (carts : List Cart) : StoreOp → List Cart
  | .add uid pid q => (addToCart uid pid q carts).2
  | .clear uid => (clearCart uid carts).2
  | .view uid => (getCart uid carts).2

def runOps : List StoreOp → List Cart → List Cart
  | [], carts => carts
  | op :: rest, carts => runOps rest (runOp carts op)

def cartKeys (c : Cart) : List String := c.items.map (fun it => it.productId)

/-- Invariant: every cart has at most one line per product id. -/
def CartsOk (carts : List Cart) : Prop := ∀ c ∈ carts, (cartKeys c).Nodup

/-- Items of the user's cart as seen through `getCart`. -/
def userItems (userId : String) (carts : List Cart) : List CartItem :=
  (getCart userId carts).1.items

/-- Quantity recorded on the first line with the given product id. -/
def qtyOf (items : List CartItem) (pid : String) : ℤ :=
  match items.find? (fun it => it.productId == pid) with
  | some it => it.quantity
  | none => 0

/-! ### Keyed stores (JavaScript `Map` / file-backed record objects) -/

/-- `Map.get`: value of the first entry with the given key. -/
def storeGet {α : Type} (m : List (String × α)) (k : String) : Option α :=
  (m.find? (fun e => e.1 == k)).map (fun e => e.2)

/-- `Map.set`: replace the existing entry in place, or append a new one. -/
def storeSet {α : Type} : List (String × α) → String → α → List (String × α)
  | [], k, v => [(k, v)]
  | e :: rest, k, v =>
    if e.1 == k then (k, v) :: rest else e :: storeSet rest k v

/-- `Map.delete`: remove the entry with the given key, if any. -/
def storeDel {α : Type} : List (String × α) → String → List (String × α)
  | [], _ => []
  | e :: rest, k => if e.1 == k then rest else e :: storeDel rest k

/-! ### CIBA request storage (`src/lib/ciba-storage.ts`) -/

inductive CibaStatus
  | pending
  | approved
  | denied
deriving DecidableEq, Repr

structure CibaRequest where
  userId : String
  status : CibaStatus
  timestamp : ℕ
  checkoutData : Option CartData
deriving DecidableEq, Repr

abbrev CibaStore := List (String × CibaRequest)

/-- `createCibaRequest`: store a fresh pending request. -/
def createCibaRequest (authReqId userId : String) (checkoutData : Option CartData)
    (now : ℕ) (store : CibaStore) : CibaStore :=
  storeSet store authReqId ⟨userId, CibaStatus.pending, now, checkoutData⟩

/-- `getCibaRequest`: plain lookup — this version performs no expiry
check of its own (the route handler does it). -/
def getCibaRequest (store : CibaStore) (authReqId : String) : Option CibaRequest :=
  storeGet store authReqId

/-- `updateCibaRequest` (`ciba-storage.ts` lines 96-106): overwrite the
status of an existing request unconditionally; no terminal-state guard. -/
def updateCibaRequest (store : CibaStore) (authReqId : String)
    (status : CibaStatus) : Bool × CibaStore :=
  match storeGet store authReqId with
  | some r => (true, storeSet store authReqId { r with status := status })
  | none => (false, store)

/-- `deleteCibaRequest`. -/
def deleteCibaRequest (store : CibaStore) (authReqId : String) : Bool × CibaStore :=
  if (storeGet store authReqId).isSome then (true, storeDel store authReqId)
  else (false, store)

/-! ### The CIBA decide and status endpoints (`src/unnamed/part_011`) -/

inductive PutResp
  | notFound
  | badAction
  | success
deriving DecidableEq, Repr

/-- The `PUT` decide handler (part_011 lines 100-137): looks the request
up by id and overwrites its status according to `action`.  The handler
never calls `getSession`, so no decider identity appears here at all. -/
def cibaTokenPUT (store : CibaStore) (authReqId : String) (action : String) :
    PutResp × CibaStore :=
  match getCibaRequest store authReqId with
  | none => (PutResp.notFound, store)
  | some _ =>
    if action == "approve" then
      (PutResp.success, (updateCibaRequest store authReqId CibaStatus.approved).2)
    else if action == "deny" then
      (PutResp.success, (updateCibaRequest store authReqId CibaStatus.denied).2)
    else (PutResp.badAction, store)

/-- A decide call as issued by a user: the decider's identity is passed to
the endpoint's transport layer but, as `cibaTokenPUT` shows, the handler
ignores it entirely. -/
def decideCiba (deciderUserId : String) (store : CibaStore) (authReqId : String)
    (action : String) : PutResp × CibaStore :=
  let _ := deciderUserId
  cibaTokenPUT store authReqId action

inductive PostResp
  | unauthorized
  | missingId
  | notFound
  | forbidden
  | expired
  | authorizationPending
  | approvedToken
  | accessDenied
deriving DecidableEq, Repr

/-- The `POST` status handler (part_011 lines 5-97): requires a session,
re-checks the caller against the record's `userId`, applies the 5-minute
read-through expiry (deleting the record), then reports the status
(deleting on `denied`).  `now - timestamp` is `Nat` subtraction, which
agrees with the JavaScript comparison for every `now`. -/
def cibaTokenPOST (store : CibaStore) (session : Option String) (now : ℕ)
    (authReqId : Option String) : PostResp × CibaStore :=
  match session with
  | none => (PostResp.unauthorized, store)
  | some uid =>
    match authReqId with
    | none => (PostResp.missingId, store)
    | some id =>
      if id == "" then (PostResp.missingId, store)
      else
        match getCibaRequest store id with
        | none => (PostResp.notFound, store)
        | some r =>
          if r.userId != uid then (PostResp.forbidden, store)
          else if now - r.timestamp > 5 * 60 * 1000 then
            (PostResp.expired, (deleteCibaRequest store id).2)
          else
            match r.status with
            | CibaStatus.pending => (PostResp.authorizationPending, store)
            | CibaStatus.approved => (PostResp.approvedToken, store)
            | CibaStatus.denied => (PostResp.accessDenied, (deleteCibaRequest store id).2)

/-! ### Popup request storage (`src/lib/popup-storage.ts`) -/

inductive PopupStatus
  | pending
  | completed
  | failed
deriving DecidableEq, Repr

structure OrderLine where
  name : String
  price : ℚ
  quantity : ℤ
deriving DecidableEq, Repr

structure PopupResult where
  success : Bool
  itemCount : ℕ
  total : ℚ
  items : List OrderLine
deriving DecidableEq, Repr

structure PopupRequest where
  id : String
  userId : String
  cartData : CartData
  status : PopupStatus
  result : Option PopupResult
  error : Option String
  timestamp : ℕ
  expiresAt : ℕ
deriving DecidableEq, Repr

abbrev PopupStore := List (String × PopupRequest)

/-- `storePopupRequest`: record a pending request expiring 5 minutes from
now; the generated id is passed in (`Math.random` made explicit). -/
def storePopupRequest (now : ℕ) (newId userId : String) (cartData : CartData)
    (store : PopupStore) : String × PopupStore :=
  (newId, storeSet store newId
    ⟨newId, userId, cartData, PopupStatus.pending, none, none, now, now + 5 * 60 * 1000⟩)

/-- `getPopupRequest` (`popup-storage.ts` lines 72-86): read-through
expiry — a request strictly past `expiresAt` is deleted and reported
absent. -/
def getPopupRequest (now : ℕ) (store : PopupStore) (id : String) :
    Option PopupRequest × PopupStore :=
  match storeGet store id with
  | none => (none, store)
  | some r =>
    if now > r.expiresAt then (none, storeDel store id)
    else (some r, store)

/-- `updatePopupRequest`: set status and optionally result/error. -/
def updatePopupRequest (store : PopupStore) (id : String) (status : PopupStatus)
    (result : Option PopupResult) (error : Option String) : Bool × PopupStore :=
  match storeGet store id with
  | none => (false, store)
  | some r =>
    (true, storeSet store id
      { r with
        status := status
        result := match result with | some v => some v | none => r.result
        error := match error with | some v => some v | none => r.error })

/-! ### Checkout route (`src/app/api/checkout/route.ts`) -/

inductive CheckoutResp
  | unauthorized
  | invalidAuthorization
  | notYourRequest
  | noCheckoutData
  | emptyCart
  | invalidCart
  | success (total : ℚ) (items : List OrderLine)
deriving DecidableEq, Repr

/-- Subtotal contributed by one joined cart line (missing products
contribute 0, as in the `reduce` at lines 115-120). -/
def lineTotal (l : CartLine) : ℚ :=
  match l.product with
  | some p => p.price * (l.quantity : ℚ)
  | none => 0

/-- The order total computed by the checkout route. -/
def computeTotal (items : List CartLine) : ℚ := (items.map lineTotal).sum

/-- The item mapping used for order summaries and popup results
(`item.product?.name` with an `Unknown Product` fallback). -/
def toOrderLines (items : List CartLine) : List OrderLine :=
  items.map (fun l =>
    match l.product with
    | some p => ⟨p.name, p.price, l.quantity⟩
    | none => ⟨"Unknown Product", 0, l.quantity⟩)

/-- Tail of the checkout handler (lines 97-158): empty/invalid checks,
total, order building; cart clearing is commented out in the source
(lines 125-128), so the cart list passes through unchanged; the CIBA
request is cleaned up when an `authReqId` was supplied. -/
def finishCheckout (authReqId : Option String) (cartData : CartData)
    (cibaStore : CibaStore) (popupStore : PopupStore) (carts : List Cart) :
    CheckoutResp × CibaStore × PopupStore × List Cart :=
  if cartData.items.length == 0 then
    (CheckoutResp.emptyCart, cibaStore, popupStore, carts)
  else if cartData.items.any (fun l => l.product.isNone) then
    (CheckoutResp.invalidCart, cibaStore, popupStore, carts)
  else
    let cibaStore1 :=
      match authReqId with
      | some id => (deleteCibaRequest cibaStore id).2
      | none => cibaStore
    (CheckoutResp.success (computeTotal cartData.items) (toOrderLines cartData.items),
      cibaStore1, popupStore, carts)

/-- The checkout `POST` handler (lines 6-167).  Branches: popup-completion
(re-reads the live cart and marks the popup request completed), CIBA
(uses the `checkoutData` snapshot stored in the authorization request,
after ownership re-validation), or a plain live-cart checkout. -/
def checkoutPOST (session : Option String) (authReqId : Option String)
    (action : Option String) (popupRequestId : Option String)
    (cibaStore : CibaStore) (popupStore : PopupStore) (carts : List Cart) :
    CheckoutResp × CibaStore × PopupStore × List Cart :=
  match session with
  | none => (CheckoutResp.unauthorized, cibaStore, popupStore, carts)
  | some uid =>
    if action == some "popup_checkout_complete" then
      let live := getCartWithProducts uid carts
      let popupStore1 :=
        match popupRequestId with
        | some pid =>
          (updatePopupRequest popupStore pid PopupStatus.completed
            (some ⟨true, live.1.items.length, live.1.total, toOrderLines live.1.items⟩)
            none).2
        | none => popupStore
      finishCheckout authReqId live.1 cibaStore popupStore1 live.2
    else
      match authReqId with
      | some id =>
        match getCibaRequest cibaStore id with
        | none => (CheckoutResp.invalidAuthorization, cibaStore, popupStore, carts)
        | some r =>
          if r.userId != uid then
            (CheckoutResp.notYourRequest, cibaStore, popupStore, carts)
          else
            match r.checkoutData with
            | none => (CheckoutResp.noCheckoutData, cibaStore, popupStore, carts)
            | some snap => finishCheckout (some id) snap cibaStore popupStore carts
      | none =>
        let live := getCartWithProducts uid carts
        finishCheckout none live.1 cibaStore popupStore live.2

/-! ### The CIBA completion poller (`src/app/api/chat/route.ts` 556-693) -/

/-- Outcome of one token-endpoint poll, as discriminated by the handler. -/
inductive TokenResp
  | approved
  | pending
  | slowDown
  | accessDenied
  | expiredToken
  | unknownErr
  | transportErr
deriving DecidableEq, Repr

/-- Events the poller emits on the caller-facing response stream (plus
the sleeps between polls and the execution of the checkout effect). -/
inductive PollEvent
  | sleep (seconds : ℚ)
  | effectRun (data : CartData)
  | emitApproved
  | emitCheckoutError
  | emitDenied
  | emitExpired
  | emitTimeout
  | close
deriving DecidableEq, Repr

/-- The slow-down backoff update of line 644:
`slowDownDelay = Math.min(slowDownDelay * 1.5, 30)`. -/
def nextDelay (d : ℚ) : ℚ := min (d * (3 / 2)) 30

/-- Body of the `while (attempts < maxAttempts)` loop, with the remaining
attempt budget as fuel.  On `approved` the handler re-reads the live cart
(`getCartWithProducts`, line 605 — cart clearing stays commented out) and
closes; `authorization_pending`, `slow_down`, unknown token errors and
transport errors all continue; `access_denied` and `expired_token` emit
and close; an exhausted budget emits the timeout and closes. -/
def pollGo (resp : ℕ → TokenResp) (userId : String) :
    ℕ → ℕ → ℚ → List Cart → List PollEvent × List Cart
  | 0, _, _, carts => ([PollEvent.emitTimeout, PollEvent.close], carts)
  | fuel + 1, attempts, d, carts =>
    match resp attempts with
    | TokenResp.approved =>
      let live := getCartWithProducts userId carts
      if live.1.items.isEmpty then
        ([PollEvent.sleep d, PollEvent.emitCheckoutError, PollEvent.close], live.2)
      else
        ([PollEvent.sleep d, PollEvent.effectRun live.1, PollEvent.emitApproved,
          PollEvent.close], live.2)
    | TokenResp.pending =>
      let rest := pollGo resp userId fuel (attempts + 1) d carts
      (PollEvent.sleep d :: rest.1, rest.2)
    | TokenResp.slowDown =>
      let rest := pollGo resp userId fuel (attempts + 1) (nextDelay d) carts
      (PollEvent.sleep d :: rest.1, rest.2)
    | TokenResp.accessDenied =>
      ([PollEvent.sleep d, PollEvent.emitDenied, PollEvent.close], carts)
    | TokenResp.expiredToken =>
      ([PollEvent.sleep d, PollEvent.emitExpired, PollEvent.close], carts)
    | TokenResp.unknownErr =>
      let rest := pollGo resp userId fuel (attempts + 1) d carts
      (PollEvent.sleep d :: rest.1, rest.2)
    | TokenResp.transportErr =>
      let rest := pollGo resp userId fuel (attempts + 1) d carts
      (PollEvent.sleep d :: rest.1, rest.2)

/-- `pollForCompletion`: 60 attempts, initial 5-second interval. -/
def pollForCompletion (resp : ℕ → TokenResp) (userId : String)
    (carts : List Cart) : List PollEvent × List Cart :=
  pollGo resp userId 60 0 5 carts

/-- The `finally` block of the chat stream (route.ts lines 920-929):
the controller is closed there only when no async operation is running. -/
def chatStreamClose (hasAsyncOperation : Bool) : List PollEvent :=
  if hasAsyncOperation then [] else [PollEvent.close]

/-- The interval sequence produced by consecutive slow-down signals,
starting from the initial 5-second delay. -/
def slowDelaySeq : ℕ → ℚ
  | 0 => 5
  | n + 1 => nextDelay (slowDelaySeq n)

/-- The sleep performed by `waitForCibaCompletion` in `auth0-ciba.ts`
(line 257) on a slow-down signal: `interval * 1.5`, not compounded. -/
def cibaSlowDownSleep (interval : ℚ) : ℚ := interval * (3 / 2)

def countClose : List PollEvent → ℕ
  | [] => 0
  | PollEvent.close :: rest => countClose rest + 1
  | _ :: rest => countClose rest

def countEffect : List PollEvent → ℕ
  | [] => 0
  | PollEvent.effectRun _ :: rest => countEffect rest + 1
  | _ :: rest => countEffect rest

def countSleep : List PollEvent → ℕ
  | [] => 0
  | PollEvent.sleep _ :: rest => countSleep rest + 1
  | _ :: rest => countSleep rest

def countEmitApproved : List PollEvent → ℕ
  | [] => 0
  | PollEvent.emitApproved :: rest => countEmitApproved rest + 1
  | _ :: rest => countEmitApproved rest

/-! ### The popup completion poller (`src/app/api/chat/route.ts` 771-846) -/

/-- What one popup poll attempt observes: either the body runs and sees
the stored request (or its absence), or it throws. -/
inductive PopupObs
  | throwErr
  | result (r : Option PopupRequest)
deriving Repr

inductive PopupEvent
  | expiredMsg
  | successMsg
  | failedMsg
  | timeoutMsg
  | hardErrMsg
  | retryErr
  | doneMark
  | close
deriving DecidableEq, Repr

/-- `pollPopupStatus` loop body.  State: remaining fuel, `pollCount`
(incremented at the top of each attempt) and `consecutiveErrors` (never
reset on success, per the source).  `maxPolls = 60`, `maxAuthErrors = 3`. -/
def popupGo (obs : ℕ → PopupObs) : ℕ → ℕ → ℕ → List PopupEvent
  | 0, _, _ => []
  | fuel + 1, pollCount, consecutiveErrors =>
    match obs pollCount with
    | PopupObs.throwErr =>
      if consecutiveErrors + 1 ≥ 3 then
        [PopupEvent.hardErrMsg, PopupEvent.doneMark, PopupEvent.close]
      else
        PopupEvent.retryErr :: popupGo obs fuel (pollCount + 1) (consecutiveErrors + 1)
    | PopupObs.result none =>
      [PopupEvent.expiredMsg, PopupEvent.doneMark, PopupEvent.close]
    | PopupObs.result (some r) =>
      match r.status with
      | PopupStatus.completed => [PopupEvent.successMsg, PopupEvent.doneMark, PopupEvent.close]
      | PopupStatus.failed => [PopupEvent.failedMsg, PopupEvent.doneMark, PopupEvent.close]
      | PopupStatus.pending =>
        if pollCount + 1 ≥ 60 then
          [PopupEvent.timeoutMsg, PopupEvent.doneMark, PopupEvent.close]
        else
          popupGo obs fuel (pollCount + 1) consecutiveErrors

/-- Entry point of the popup poller (fuel covers 60 polls + 3 errors). -/
def pollPopupStatus (obs : ℕ → PopupObs) : List PopupEvent :=
  popupGo obs 130 0 0

def countRetryErr : List PopupEvent → ℕ
  | [] => 0
  | PopupEvent.retryErr :: rest => countRetryErr rest + 1
  | _ :: rest => countRetryErr rest

def countHardErr : List PopupEvent → ℕ
  | [] => 0
  | PopupEvent.hardErrMsg :: rest => countHardErr rest + 1
  | _ :: rest => countHardErr rest

/-! ### Initiation paths (empty-cart fail-fast) -/

inductive InitOutcome
  | notSignedIn
  | emptyCart
  | prompt (requestId : String)
deriving DecidableEq, Repr

/-- The `popup_checkout` tool handler (chat route lines 702-772): reads
the live cart, fails fast on an empty cart, otherwise stores a popup
request and emits the authorization prompt. -/
def popup_checkout (session : Option String) (carts : List Cart)
    (popupStore : PopupStore) (now : ℕ) (newId : String) :
    InitOutcome × PopupStore × List Cart :=
  match session with
  | none => (InitOutcome.notSignedIn, popupStore, carts)
  | some uid =>
    let live := getCartWithProducts uid carts
    if live.1.items.isEmpty then (InitOutcome.emptyCart, popupStore, live.2)
    else
      let stored := storePopupRequest now newId uid live.1 popupStore
      (InitOutcome.prompt stored.1, stored.2, live.2)

/-- The `async_checkout` tool handler of the CIBA chat route
(`src/unnamed/part_009` lines 479-510): empty-cart check before
`createCibaRequest`. -/
def async_checkout (session : Option String) (carts : List Cart)
    (cibaStore : CibaStore) (now : ℕ) (newId : String) :
    InitOutcome × CibaStore × List Cart :=
  match session with
  | none => (InitOutcome.notSignedIn, cibaStore, carts)
  | some uid =>
    let live := getCartWithProducts uid carts
    if live.1.items.isEmpty then (InitOutcome.emptyCart, cibaStore, live.2)
    else
      (InitOutcome.prompt newId,
        createCibaRequest newId uid (some live.1) now cibaStore, live.2)

inductive ToolOutcome
  | notLoggedIn
  | emptyCartMsg
  | authFailed
  | proceeds (itemCount : ℤ) (total : ℚ)
deriving DecidableEq, Repr

/-- `asyncCheckoutTool` (`src/lib/tools/async-checkout.ts` lines 9-52):
the empty-cart check (lines 22-24) runs before the CIBA credentials are
consulted, so an empty cart never reaches the authorization step. -/
def asyncCheckoutTool (user : Option String) (carts : List Cart)
    (credentials : Option String) : ToolOutcome × List Cart :=
  match user with
  | none => (ToolOutcome.notLoggedIn, carts)
  | some uid =>
    let live := getCartWithProducts uid carts
    if live.1.items.isEmpty then (ToolOutcome.emptyCartMsg, live.2)
    else
      match credentials with
      | none => (ToolOutcome.authFailed, live.2)
      | some _ =>
        (ToolOutcome.proceeds ((live.1.items.map (fun l => l.quantity)).sum)
          (computeTotal live.1.items), live.2)

/-- Events emitted by the live chat route's `async_checkout` branch. -/
inductive ChatEvent
  | initMsg
  | pushPrompt
  | awaitApproval
  | checkoutErrorMsg
  | poll (e : PollEvent)
deriving DecidableEq, Repr

/-- Modelled from the spec: the `withAsyncUserConfirmation` wrapper of
the Auth0 AI SDK — configured in `auth0-ai.ts` but whose own source is
not part of this repository — gates the wrapped tool behind backchannel
authorization.  Per the spec's control flow, the BackchannelInitiator
creates the pending authorization request (with its payload-independent
binding message) and sends the push prompt, then interrupts the call, so
the wrapped tool's body — and with it the empty-cart check inside
`asyncCheckout.execute` — runs only after authorization.  The chat
route's interrupt handler (route.ts lines 524-545) confirms this
ordering: it announces the already-sent push and reads the
`auth_req_id` of the already-created request out of the interrupt. -/
def withAsyncUserConfirmation_initiate (userId authReqId : String) (now : ℕ)
    (store : CibaStore) : CibaStore :=
  createCibaRequest authReqId userId none now store

/-- The `async_checkout` branch of the live chat route (route.ts lines
504-553 with the poll loop of 556-693): emit the initiation message,
invoke the wrapped tool — which creates the authorization request and
sends the push prompt before any cart check can run — then catch the
interrupt, announce the wait and drive `pollForCompletion`.  The branch
itself performs no cart check.  With no session, the wrapper's identity
lookup fails and the non-interrupt catch reports a checkout error. -/
def async_checkout_route (session : Option String) (carts : List Cart)
    (store : CibaStore) (now : ℕ) (authReqId : String)
    (resp : ℕ → TokenResp) : List ChatEvent × CibaStore × List Cart :=
  match session with
  | none => ([ChatEvent.initMsg, ChatEvent.checkoutErrorMsg], store, carts)
  | some uid =>
    let store1 := withAsyncUserConfirmation_initiate uid authReqId now store
    let run := pollForCompletion resp uid carts
    (ChatEvent.initMsg :: ChatEvent.pushPrompt :: ChatEvent.awaitApproval ::
        run.1.map ChatEvent.poll,
      store1, run.2)

/-! ### Concrete fixtures used by counterexamples and witnesses -/

/-- A cart store holding one cart with a single line: one milk. -/
def cartsOneMilk : List Cart := [⟨"u", [⟨"1", 1⟩]⟩]

/-- The snapshot captured from `cartsOneMilk` at request-creation time. -/
def snapshotMilk : CartData := (getCartWithProducts "u" cartsOneMilk).1

/-- A popup store holding a request created over `snapshotMilk`. -/
def popupStoreC6 : PopupStore := (storePopupRequest 0 "p1" "u" snapshotMilk []).2

/-- The cart store after the owner adds 3 bread between request creation
and approval. -/
def cartsMutated : List Cart := (addToCart "u" "2" 3 cartsOneMilk).2

/-- A CIBA store holding an approved request carrying the milk snapshot. -/
def cibaStoreSnap : CibaStore :=
  [("c1", ⟨"u", CibaStatus.approved, 0, some snapshotMilk⟩)]

/-- Order lines carried by a successful checkout response. -/
def checkoutRespItems : CheckoutResp → Option (List OrderLine)
  | CheckoutResp.success _ items => some items
  | _ => none

/-- A poll oracle answering four consecutive transport errors and then an
approval. -/
def respC8 : ℕ → TokenResp :=
  fun i => if i < 4 then TokenResp.transportErr else TokenResp.approved

/-- A CIBA store holding a pending request owned by `userA`. -/
def cibaStorePendingA : CibaStore :=
  [("req1", ⟨"userA", CibaStatus.pending, 0, none⟩)]

/-- A CIBA store holding a request owned by `alice` already approved. -/
def cibaStoreApprovedAlice : CibaStore :=
  [("r1", ⟨"alice", CibaStatus.approved, 0, none⟩)]

/-! ## Store lemmas -/

theorem storeGet_storeSet_self {α : Type} (m : List (String × α)) (k : String) (v : α) :
    storeGet (storeSet m k v) k = some v := by
  induction m with
  | nil => simp [storeGet, storeSet]
  | cons e rest ih =>
    by_cases h : e.1 = k
    · simp [storeGet, storeSet, h]
    · have hb : (e.1 == k) = false := beq_eq_false_iff_ne.mpr h
      simp only [storeSet, hb, Bool.false_eq_true, if_false]
      simpa [storeGet, List.find?, hb] using ih

/-- `cibaTokenPUT` on an existing request with action `deny`: success and
unconditional overwrite of the stored status. -/
theorem cibaTokenPUT_deny {store : CibaStore} {id : String} {r : CibaRequest}
    (h : getCibaRequest store id = some r) :
    cibaTokenPUT store id "deny"
      = (PutResp.success, storeSet store id { r with status := CibaStatus.denied }) := by
  have h' : storeGet store id = some r := h
  simp [cibaTokenPUT, updateCibaRequest, h, h']

/-- `cibaTokenPUT` on an existing request with action `approve`. -/
theorem cibaTokenPUT_approve {store : CibaStore} {id : String} {r : CibaRequest}
    (h : getCibaRequest store id = some r) :
    cibaTokenPUT store id "approve"
      = (PutResp.success, storeSet store id { r with status := CibaStatus.approved }) := by
  have h' : storeGet store id = some r := h
  simp [cibaTokenPUT, updateCibaRequest, h, h']

/-! ## Claim C1 — ownership enforcement on decide -/

/-- C1 (amended).  The decide endpoint performs no identity re-check at
all: a decide call by any user B — including B different from the owner
A — on an existing request returns success and overwrites the stored
state; the ownership re-validation against the record's `userId` happens
only on the status-read endpoint, which returns Forbidden and leaves the
store unchanged for every non-owner caller. -/
theorem claim_C1 :
    (∀ (deciderB : String) (store : CibaStore) (id : String) (r : CibaRequest),
       getCibaRequest store id = some r →
       (decideCiba deciderB store id "deny").1 = PutResp.success ∧
       getCibaRequest (decideCiba deciderB store id "deny").2 id
         = some { r with status := CibaStatus.denied }) ∧
    (∀ (store : CibaStore) (uid id : String) (r : CibaRequest) (now : ℕ),
       id ≠ "" → getCibaRequest store id = some r → uid ≠ r.userId →
       cibaTokenPOST store (some uid) now (some id) = (PostResp.forbidden, store)) := by
  constructor
  · intro deciderB store id r h
    have hput := cibaTokenPUT_deny h
    constructor
    · simp [decideCiba, hput]
    · simp [decideCiba, hput, getCibaRequest, storeGet_storeSet_self]
  · intro store uid id r now hid h hne
    have hidb : (id == "") = false := beq_eq_false_iff_ne.mpr hid
    have huser : (r.userId != uid) = true := by
      simp [bne_iff_ne]
      exact fun e => hne e.symm
    simp [cibaTokenPOST, hidb, h, huser]

/-- C1 counterexample.  `userB` is not the owner (`userA`) of the pending
request `req1`, yet the decide call succeeds (it does not return
Forbidden) and the stored state flips from pending to denied. -/
theorem claim_C1_counterexample :
    (decideCiba "userB" cibaStorePendingA "req1" "deny").1 = PutResp.success ∧
    (decideCiba "userB" cibaStorePendingA "req1" "deny").2 ≠ cibaStorePendingA ∧
    getCibaRequest (decideCiba "userB" cibaStorePendingA "req1" "deny").2 "req1"
      = some ⟨"userA", CibaStatus.denied, 0, none⟩ := by decide

/-- C1 witness: the amended theorem applied at a concrete store. -/
theorem claim_C1_witness :
    ((decideCiba "userB" cibaStorePendingA "req1" "deny").1 = PutResp.success ∧
      getCibaRequest (decideCiba "userB" cibaStorePendingA "req1" "deny").2 "req1"
        = some { userId := "userA", status := CibaStatus.denied, timestamp := 0,
                 checkoutData := none }) ∧
    cibaTokenPOST cibaStorePendingA (some "userB") 7 (some "req1")
      = (PostResp.forbidden, cibaStorePendingA) :=
  ⟨claim_C1.1 "userB" cibaStorePendingA "req1"
      ⟨"userA", CibaStatus.pending, 0, none⟩ (by decide),
   claim_C1.2 cibaStorePendingA "userB" "req1"
      ⟨"userA", CibaStatus.pending, 0, none⟩ 7 (by decide) (by decide) (by decide)⟩

/-! ## Claim C2 — terminal immutability -/

/-- C2 (amended).  The stored state carries no terminal guard: a decide
call on any existing request — pending or already terminal — returns
success and overwrites the stored status (a conflicting second decision
silently overwrites instead of returning AlreadyTerminal; a repeated
identical decision is a success echo re-writing the same status); the
outcome only becomes immutable once the record is deleted, after which
every decide call returns NotFound and leaves the store unchanged. -/
theorem claim_C2 :
    (∀ (store : CibaStore) (id : String) (r : CibaRequest),
       getCibaRequest store id = some r →
       cibaTokenPUT store id "deny"
           = (PutResp.success, storeSet store id { r with status := CibaStatus.denied }) ∧
       cibaTokenPUT store id "approve"
           = (PutResp.success, storeSet store id { r with status := CibaStatus.approved })) ∧
    (∀ (store : CibaStore) (id action : String),
       getCibaRequest store id = none →
       cibaTokenPUT store id action = (PutResp.notFound, store)) := by
  constructor
  · intro store id r h
    exact ⟨cibaTokenPUT_deny h, cibaTokenPUT_approve h⟩
  · intro store id action h
    simp [cibaTokenPUT, h]

/-- C2 counterexample.  `r1` is already terminal (approved), yet a
conflicting deny succeeds and silently overwrites the terminal state —
the endpoint has no AlreadyTerminal outcome. -/
theorem claim_C2_counterexample :
    (cibaTokenPUT cibaStoreApprovedAlice "r1" "deny").1 = PutResp.success ∧
    getCibaRequest (cibaTokenPUT cibaStoreApprovedAlice "r1" "deny").2 "r1"
      = some ⟨"alice", CibaStatus.denied, 0, none⟩ := by decide

/-- C2 witness: the amended theorem applied at concrete stores. -/
theorem claim_C2_witness :
    (cibaTokenPUT cibaStoreApprovedAlice "r1" "deny"
        = (PutResp.success,
           storeSet cibaStoreApprovedAlice "r1"
             { userId := "alice", status := CibaStatus.denied, timestamp := 0,
               checkoutData := none }) ∧
      cibaTokenPUT cibaStoreApprovedAlice "r1" "approve"
        = (PutResp.success,
           storeSet cibaStoreApprovedAlice "r1"
             { userId := "alice", status := CibaStatus.approved, timestamp := 0,
               checkoutData := none })) ∧
    cibaTokenPUT [] "ghost" "deny" = (PutResp.notFound, []) :=
  ⟨claim_C2.1 cibaStoreApprovedAlice "r1"
      ⟨"alice", CibaStatus.approved, 0, none⟩ (by decide),
   claim_C2.2 [] "ghost" "deny" (by decide)⟩

/-! ## Claim C4 — lazy read-through expiry -/

/-- C4.  A read performed strictly after a request's expiry boundary
reports it as expired without any background sweep: `getPopupRequest`
deletes the record and reports it absent, the popup poller turns that
absence into the expired terminal message, and the CIBA status endpoint
answers `expired` (deleting the record) for every read strictly past
`timestamp + 5 minutes`, regardless of the status still stored. -/
theorem claim_C4 :
    (∀ (now : ℕ) (store : PopupStore) (id : String) (r : PopupRequest),
       storeGet store id = some r → now > r.expiresAt →
       getPopupRequest now store id = (none, storeDel store id)) ∧
    (∀ (obs : ℕ → PopupObs) (fuel pollCount errs : ℕ),
       obs pollCount = PopupObs.result none →
       popupGo obs (fuel + 1) pollCount errs
         = [PopupEvent.expiredMsg, PopupEvent.doneMark, PopupEvent.close]) ∧
    (∀ (store : CibaStore) (uid id : String) (r : CibaRequest) (now : ℕ),
       id ≠ "" → getCibaRequest store id = some r → r.userId = uid →
       now > r.timestamp + 5 * 60 * 1000 →
       cibaTokenPOST store (some uid) now (some id)
         = (PostResp.expired, (deleteCibaRequest store id).2)) := by
  refine ⟨?_, ?_, ?_⟩
  · intro now store id r h hlt
    simp [getPopupRequest, h, hlt]
  · intro obs fuel pollCount errs h
    simp [popupGo, h]
  · intro store uid id r now hid h howner hlate
    have hidb : (id == "") = false := beq_eq_false_iff_ne.mpr hid
    have huser : (r.userId != uid) = false := by
      simp [bne_eq_false_iff_eq]
      exact howner
    have htime : now - r.timestamp > 5 * 60 * 1000 := by omega
    simp [cibaTokenPOST, hidb, h, huser, htime]

/-- C4 witness: a pending popup request and a pending CIBA request, both
created at time 0, read at time 300001 (one millisecond past the
5-minute TTL). -/
theorem claim_C4_witness :
    getPopupRequest 300001
        [("p1", ⟨"p1", "u", ⟨[], 0⟩, PopupStatus.pending, none, none, 0, 300000⟩)] "p1"
      = (none, []) ∧
    popupGo (fun _ => PopupObs.result none) 130 0 0
      = [PopupEvent.expiredMsg, PopupEvent.doneMark, PopupEvent.close] ∧
    cibaTokenPOST cibaStorePendingA (some "userA") 300001 (some "req1")
      = (PostResp.expired, []) := by
  refine ⟨?_, ?_, ?_⟩
  · have h := claim_C4.1 300001
      [("p1", ⟨"p1", "u", ⟨[], 0⟩, PopupStatus.pending, none, none, 0, 300000⟩)] "p1"
      ⟨"p1", "u", ⟨[], 0⟩, PopupStatus.pending, none, none, 0, 300000⟩
      (by decide) (by decide)
    simpa using h
  · have h := claim_C4.2.1 (fun _ => PopupObs.result none) 129 0 0 rfl
    simpa using h
  · have h := claim_C4.2.2 cibaStorePendingA "userA" "req1"
      ⟨"userA", CibaStatus.pending, 0, none⟩ 300001
      (by decide) (by decide) (by decide) (by decide)
    simpa using h

/-! ## Claim C5 — backoff monotonicity under slow-down -/

/-- The slow-down interval sequence stays within the band `[0, 30]`. -/
theorem slowDelaySeq_bounds (n : ℕ) :
    0 ≤ slowDelaySeq n ∧ slowDelaySeq n ≤ 30 := by
  induction n with
  | zero => norm_num [slowDelaySeq]
  | succ n ih =>
    constructor
    · simp only [slowDelaySeq, nextDelay]
      exact le_min (by nlinarith [ih.1]) (by norm_num)
    · simp only [slowDelaySeq, nextDelay]
      exact min_le_right _ _

/-- C5.  Starting from the initial 5-second interval, each slow-down
signal multiplies the current interval by 1.5 capped at 30 seconds
(`nextDelay`), so the successive intervals are non-decreasing and never
exceed the cap; and a slow-down response makes the poll loop continue
with the new interval rather than terminate.  The `auth0-ciba.ts` waiter
sleeps a constant `interval * 1.5` on slow-down, which for its default
5-second interval is 7.5 seconds — also at least the interval and below
the 30-second cap. -/
theorem claim_C5 :
    slowDelaySeq 0 = 5 ∧
    (∀ n : ℕ, slowDelaySeq n ≤ slowDelaySeq (n + 1) ∧ slowDelaySeq n ≤ 30) ∧
    (∀ (uid : String) (fuel attempts : ℕ) (d : ℚ) (carts : List Cart),
       pollGo (fun _ => TokenResp.slowDown) uid (fuel + 1) attempts d carts
         = (PollEvent.sleep d ::
             (pollGo (fun _ => TokenResp.slowDown) uid fuel (attempts + 1)
               (nextDelay d) carts).1,
            (pollGo (fun _ => TokenResp.slowDown) uid fuel (attempts + 1)
               (nextDelay d) carts).2)) ∧
    (cibaSlowDownSleep 5 = 15 / 2 ∧ (5 : ℚ) ≤ 15 / 2 ∧ (15 / 2 : ℚ) ≤ 30) := by
  refine ⟨rfl, ?_, ?_, by norm_num [cibaSlowDownSleep]⟩
  · intro n
    have hb := slowDelaySeq_bounds n
    constructor
    · show slowDelaySeq n ≤ nextDelay (slowDelaySeq n)
      exact le_min (by nlinarith [hb.1]) hb.2
    · exact hb.2
  · intro uid fuel attempts d carts
    rfl

/-! ## Claim C9 — the response stream closes exactly once -/

/-- Every run of the poll loop body emits exactly one close, whatever the
token endpoint answers and however much budget remains. -/
theorem pollGo_countClose (resp : ℕ → TokenResp) (uid : String) :
    ∀ (fuel attempts : ℕ) (d : ℚ) (carts : List Cart),
      countClose (pollGo resp uid fuel attempts d carts).1 = 1 := by
  intro fuel
  induction fuel with
  | zero => intro attempts d carts; rfl
  | succ n ih =>
    intro attempts d carts
    simp only [pollGo]
    cases resp attempts with
    | approved =>
      by_cases h : (getCartWithProducts uid carts).1.items.isEmpty
      · simp [h, countClose]
      · simp [h, countClose]
    | pending => simp [countClose, ih]
    | slowDown => simp [countClose, ih]
    | accessDenied => simp [countClose]
    | expiredToken => simp [countClose]
    | unknownErr => simp [countClose, ih]
    | transportErr => simp [countClose, ih]

/-- C9.  Every execution path of `pollForCompletion` — approval (with or
without a checkout failure), denial, expiry, unknown/transport errors and
the exhausted 60-attempt budget — reaches a close of the caller-facing
stream exactly once; the surrounding stream handler's `finally` block
adds no close while the asynchronous operation runs, and closes exactly
once itself when there is none. -/
theorem claim_C9 :
    (∀ (resp : ℕ → TokenResp) (uid : String) (carts : List Cart),
       countClose ((pollForCompletion resp uid carts).1 ++ chatStreamClose true) = 1) ∧
    countClose (chatStreamClose false) = 1 := by
  constructor
  · intro resp uid carts
    simp only [chatStreamClose, if_pos, List.append_nil]
    exact pollGo_countClose resp uid 60 0 5 carts
  · rfl

/-! ## Claim C8 — bounded retry of transient polling failures -/

/-- Constant transport failure: the CIBA poll loop silently retries every
failed attempt, spending its whole budget and closing with the timeout —
it never surfaces a transport-specific hard error. -/
theorem pollGo_transportErr (uid : String) :
    ∀ (fuel attempts : ℕ) (d : ℚ) (carts : List Cart),
      pollGo (fun _ => TokenResp.transportErr) uid fuel attempts d carts
        = (List.replicate fuel (PollEvent.sleep d)
             ++ [PollEvent.emitTimeout, PollEvent.close], carts) := by
  intro fuel
  induction fuel with
  | zero => intro attempts d carts; rfl
  | succ n ih =>
    intro attempts d carts
    simp [pollGo, ih, List.replicate_succ]

/-- The popup poller silently retries at most `2 - errs` more failures
before escalating (the counter is never reset). -/
theorem popupGo_retry_le (obs : ℕ → PopupObs) :
    ∀ (fuel pollCount errs : ℕ),
      countRetryErr (popupGo obs fuel pollCount errs) ≤ 2 - errs := by
  intro fuel
  induction fuel with
  | zero => intro pollCount errs; simp [popupGo, countRetryErr]
  | succ n ih =>
    intro pollCount errs
    simp only [popupGo]
    cases obs pollCount with
    | throwErr =>
      by_cases h : errs + 1 ≥ 3
      · simp [h, countRetryErr]
      · have hle : errs ≤ 1 := by omega
        have := ih (pollCount + 1) (errs + 1)
        simp only [h, if_false, countRetryErr]
        omega
    | result r =>
      cases r with
      | none => simp [countRetryErr]
      | some req =>
        cases hs : req.status with
        | completed => simp [hs, countRetryErr]
        | failed => simp [hs, countRetryErr]
        | pending =>
          simp only [hs]
          split
          · simp [countRetryErr]
          · exact ih (pollCount + 1) errs

/-- The popup poller emits the hard operational error at most once. -/
theorem popupGo_hard_le (obs : ℕ → PopupObs) :
    ∀ (fuel pollCount errs : ℕ),
      countHardErr (popupGo obs fuel pollCount errs) ≤ 1 := by
  intro fuel
  induction fuel with
  | zero => intro pollCount errs; simp [popupGo, countHardErr]
  | succ n ih =>
    intro pollCount errs
    simp only [popupGo]
    cases obs pollCount with
    | throwErr =>
      by_cases h : errs + 1 ≥ 3
      · simp [h, countHardErr]
      · simpa [h, countHardErr] using ih (pollCount + 1) (errs + 1)
    | result r =>
      cases r with
      | none => simp [countHardErr]
      | some req =>
        cases hs : req.status with
        | completed => simp [hs, countHardErr]
        | failed => simp [hs, countHardErr]
        | pending =>
          simp only [hs]
          split
          · simp [countHardErr]
          · exact ih (pollCount + 1) errs

/-- C8 (amended).  Only the popup polling path bounds failures by the
3-error budget: it silently retries at most two failures, surfaces the
hard operational error exactly on the third (never more than once), as
the all-failure trace shows.  The CIBA polling path has no failure
counter at all: transport errors are silently retried for the entire
60-attempt budget and end in the ordinary timeout, not a hard transport
error. -/
theorem claim_C8 :
    (∀ obs : ℕ → PopupObs,
       countRetryErr (pollPopupStatus obs) ≤ 2 ∧
       countHardErr (pollPopupStatus obs) ≤ 1) ∧
    pollPopupStatus (fun _ => PopupObs.throwErr)
      = [PopupEvent.retryErr, PopupEvent.retryErr, PopupEvent.hardErrMsg,
         PopupEvent.doneMark, PopupEvent.close] ∧
    (∀ (uid : String) (carts : List Cart),
       pollForCompletion (fun _ => TokenResp.transportErr) uid carts
         = (List.replicate 60 (PollEvent.sleep 5)
              ++ [PollEvent.emitTimeout, PollEvent.close], carts)) := by
  refine ⟨?_, rfl, ?_⟩
  · intro obs
    exact ⟨by simpa using popupGo_retry_le obs 130 0 0, popupGo_hard_le obs 130 0 0⟩
  · intro uid carts
    exact pollGo_transportErr uid 60 0 5 carts

/-- C8 counterexample.  Four consecutive transport failures on the CIBA
polling path are all retried silently — the poller performs five poll
attempts (the four failures plus the final approval), surfaces no hard
error, and closes exactly once with the approval; it did not stop after
three consecutive failures. -/
theorem claim_C8_counterexample :
    countSleep (pollForCompletion respC8 "u" cartsOneMilk).1 = 5 ∧
    countEmitApproved (pollForCompletion respC8 "u" cartsOneMilk).1 = 1 ∧
    countClose (pollForCompletion respC8 "u" cartsOneMilk).1 = 1 ∧
    (pollForCompletion respC8 "u" cartsOneMilk).1.getLast? = some PollEvent.close := by
  refine ⟨by decide, by decide, by decide, ?_⟩
  decide

/-! ## Claim C3 — the protected side effect -/

/-- The checkout effect runs at most once per poll run. -/
theorem pollGo_countEffect_le (resp : ℕ → TokenResp) (uid : String) :
    ∀ (fuel attempts : ℕ) (d : ℚ) (carts : List Cart),
      countEffect (pollGo resp uid fuel attempts d carts).1 ≤ 1 := by
  intro fuel
  induction fuel with
  | zero => intro attempts d carts; simp [pollGo, countEffect]
  | succ n ih =>
    intro attempts d carts
    simp only [pollGo]
    cases resp attempts with
    | approved =>
      by_cases h : (getCartWithProducts uid carts).1.items.isEmpty
      · simp [h, countEffect]
      · simp [h, countEffect]
    | pending => simpa [countEffect] using ih (attempts + 1) d carts
    | slowDown => simpa [countEffect] using ih (attempts + 1) (nextDelay d) carts
    | accessDenied => simp [countEffect]
    | expiredToken => simp [countEffect]
    | unknownErr => simpa [countEffect] using ih (attempts + 1) d carts
    | transportErr => simpa [countEffect] using ih (attempts + 1) d carts

/-- If the token endpoint never reports an approval, the checkout effect
never runs (denial, expiry, errors and timeout all leave it uninvoked). -/
theorem pollGo_countEffect_zero (resp : ℕ → TokenResp) (uid : String)
    (h : ∀ i, resp i ≠ TokenResp.approved) :
    ∀ (fuel attempts : ℕ) (d : ℚ) (carts : List Cart),
      countEffect (pollGo resp uid fuel attempts d carts).1 = 0 := by
  intro fuel
  induction fuel with
  | zero => intro attempts d carts; simp [pollGo, countEffect]
  | succ n ih =>
    intro attempts d carts
    simp only [pollGo]
    cases hr : resp attempts with
    | approved => exact absurd hr (h attempts)
    | pending => simpa [countEffect] using ih (attempts + 1) d carts
    | slowDown => simpa [countEffect] using ih (attempts + 1) (nextDelay d) carts
    | accessDenied => simp [countEffect]
    | expiredToken => simp [countEffect]
    | unknownErr => simpa [countEffect] using ih (attempts + 1) d carts
    | transportErr => simpa [countEffect] using ih (attempts + 1) d carts

/-- `getCart` never drops or modifies an existing cart. -/
theorem getCart_snd_mem {carts : List Cart} {c : Cart} (uid : String)
    (h : c ∈ carts) : c ∈ (getCart uid carts).2 := by
  unfold getCart
  cases hf : carts.find? (fun x => x.userId == uid) with
  | some d => simpa using h
  | none => simpa using Or.inl h

/-- The poll run never removes or modifies any pre-existing cart: in
particular the owner's cart is never cleared on any path. -/
theorem pollGo_carts_mem (resp : ℕ → TokenResp) (uid : String) :
    ∀ (fuel attempts : ℕ) (d : ℚ) (carts : List Cart) (c : Cart),
      c ∈ carts → c ∈ (pollGo resp uid fuel attempts d carts).2 := by
  intro fuel
  induction fuel with
  | zero => intro attempts d carts c h; simpa [pollGo] using h
  | succ n ih =>
    intro attempts d carts c h
    simp only [pollGo]
    cases resp attempts with
    | approved =>
      have hg : c ∈ (getCartWithProducts uid carts).2 := getCart_snd_mem uid h
      by_cases hb : (getCartWithProducts uid carts).1.items.isEmpty <;>
        simpa [hb] using hg
    | pending => simpa using ih (attempts + 1) d carts c h
    | slowDown => simpa using ih (attempts + 1) (nextDelay d) carts c h
    | accessDenied => simpa using h
    | expiredToken => simpa using h
    | unknownErr => simpa using ih (attempts + 1) d carts c h
    | transportErr => simpa using ih (attempts + 1) d carts c h

/-- C3 (amended).  The checkout effect is invoked at most once per poll
run, exactly in the approved branch: a run whose poll responses never
include an approval (denied, expired, erroring or timed-out runs)
invokes it zero times, and repeating polls cannot re-execute it because
the poller closes after the first terminal observation.  However, the
effect does not clear the owner's cart: cart clearing is commented out
in the source, so every pre-existing cart survives every poll run
unchanged. -/
theorem claim_C3 :
    (∀ (resp : ℕ → TokenResp) (uid : String) (carts : List Cart),
       countEffect (pollForCompletion resp uid carts).1 ≤ 1) ∧
    (∀ (resp : ℕ → TokenResp) (uid : String) (carts : List Cart),
       (∀ i, resp i ≠ TokenResp.approved) →
       countEffect (pollForCompletion resp uid carts).1 = 0) ∧
    (∀ (resp : ℕ → TokenResp) (uid : String) (carts : List Cart) (c : Cart),
       c ∈ carts → c ∈ (pollForCompletion resp uid carts).2) := by
  refine ⟨?_, ?_, ?_⟩
  · intro resp uid carts
    exact pollGo_countEffect_le resp uid 60 0 5 carts
  · intro resp uid carts h
    exact pollGo_countEffect_zero resp uid h 60 0 5 carts
  · intro resp uid carts c h
    exact pollGo_carts_mem resp uid 60 0 5 carts c h

/-- C3 counterexample.  On an approved run over a one-item cart the
effect executes exactly once, yet the owner's cart afterwards is exactly
what it was before — still holding its item, not cleared — refuting the
claimed side effect of clearing the owner's cart. -/
theorem claim_C3_counterexample :
    countEffect (pollForCompletion (fun _ => TokenResp.approved) "u" cartsOneMilk).1 = 1 ∧
    (pollForCompletion (fun _ => TokenResp.approved) "u" cartsOneMilk).2 = cartsOneMilk ∧
    userItems "u" cartsOneMilk ≠ [] := by
  refine ⟨by decide, by decide, by decide⟩

/-- C3 witness: the amended theorem applied at concrete inputs. -/
theorem claim_C3_witness :
    countEffect (pollForCompletion (fun _ => TokenResp.pending) "w" []).1 = 0 ∧
    Cart.mk "u" [CartItem.mk "1" 1]
      ∈ (pollForCompletion (fun _ => TokenResp.accessDenied) "u" cartsOneMilk).2 :=
  ⟨claim_C3.2.1 (fun _ => TokenResp.pending) "w" [] (fun _ h => nomatch h),
   claim_C3.2.2 (fun _ => TokenResp.accessDenied) "u" cartsOneMilk
     (Cart.mk "u" [CartItem.mk "1" 1]) (by decide)⟩

/-! ## Claim C6 — payload snapshot versus live cart -/

/-- C6 (amended).  Only the CIBA branch of the checkout route applies the
snapshot captured at request-creation time: there the executed payload is
exactly the stored `checkoutData` — the live cart list is neither read
nor modified.  The popup-completion branch instead re-reads the live cart
at completion time, so a cart mutation made between creation and approval
does change what is executed on that path. -/
theorem claim_C6 :
    (∀ (uid id : String) (cibaStore : CibaStore) (popupStore : PopupStore)
       (carts : List Cart) (r : CibaRequest) (snap : CartData),
       getCibaRequest cibaStore id = some r → r.userId = uid →
       r.checkoutData = some snap →
       snap.items.length ≠ 0 →
       snap.items.any (fun l => l.product.isNone) = false →
       checkoutPOST (some uid) (some id) none none cibaStore popupStore carts
         = (CheckoutResp.success (computeTotal snap.items) (toOrderLines snap.items),
            (deleteCibaRequest cibaStore id).2, popupStore, carts)) ∧
    (∀ (uid pid : String) (cibaStore : CibaStore) (popupStore : PopupStore)
       (carts : List Cart),
       (getCartWithProducts uid carts).1.items.length ≠ 0 →
       (getCartWithProducts uid carts).1.items.any (fun l => l.product.isNone) = false →
       (checkoutPOST (some uid) none (some "popup_checkout_complete") (some pid)
           cibaStore popupStore carts).1
         = CheckoutResp.success (computeTotal (getCartWithProducts uid carts).1.items)
             (toOrderLines (getCartWithProducts uid carts).1.items)) := by
  constructor
  · intro uid id cibaStore popupStore carts r snap hget howner hdata hlen hval
    have hact : ((none : Option String) == some "popup_checkout_complete") = false := rfl
    have huser : (r.userId != uid) = false := by
      simp [bne_eq_false_iff_eq]
      exact howner
    have hlenb : (snap.items.length == 0) = false := by
      simpa using hlen
    simp [checkoutPOST, hact, hget, huser, hdata, finishCheckout, hlenb, hval]
  · intro uid pid cibaStore popupStore carts hlen hval
    have hact : ((some "popup_checkout_complete" : Option String)
        == some "popup_checkout_complete") = true := rfl
    have hlenb : ((getCartWithProducts uid carts).1.items.length == 0) = false := by
      simpa using hlen
    simp [checkoutPOST, hact, finishCheckout, hlenb, hval]

/-- C6 counterexample.  A popup request is created over a one-item
snapshot (milk); the owner then adds bread to the live cart; completing
the checkout executes the two-item live cart — Milk and Bread — not the
one-item snapshot stored in the request, so the mid-flow mutation changed
what was executed. -/
theorem claim_C6_counterexample :
    (checkoutRespItems (checkoutPOST (some "u") none (some "popup_checkout_complete")
        (some "p1") [] popupStoreC6 cartsMutated).1).map
          (fun ls => ls.map (fun l => l.name))
      = some ["Milk", "Bread"] ∧
    snapshotMilk.items.length = 1 ∧
    (storeGet popupStoreC6 "p1").map (fun r => r.cartData.items.length) = some 1 := by
  refine ⟨by decide, by decide, by decide⟩

/-- C6 witness: the amended theorem applied at concrete stores. -/
theorem claim_C6_witness :
    checkoutPOST (some "u") (some "c1") none none cibaStoreSnap [] cartsMutated
      = (CheckoutResp.success (computeTotal snapshotMilk.items)
           (toOrderLines snapshotMilk.items),
         (deleteCibaRequest cibaStoreSnap "c1").2, [], cartsMutated) ∧
    (checkoutPOST (some "u") none (some "popup_checkout_complete") (some "p1")
        [] popupStoreC6 cartsOneMilk).1
      = CheckoutResp.success (computeTotal (getCartWithProducts "u" cartsOneMilk).1.items)
          (toOrderLines (getCartWithProducts "u" cartsOneMilk).1.items) :=
  ⟨claim_C6.1 "u" "c1" cibaStoreSnap [] cartsMutated
      ⟨"u", CibaStatus.approved, 0, some snapshotMilk⟩ snapshotMilk
      rfl rfl rfl (by decide) (by decide),
   claim_C6.2 "u" "p1" [] popupStoreC6 cartsOneMilk (by decide) (by decide)⟩

/-! ## Claim C7 — empty-payload fail-fast -/

/-- One poll step that observes an approval over an empty cart reports
the checkout error and closes (route.ts lines 606-608 and 626-631). -/
theorem pollGo_approved_empty (resp : ℕ → TokenResp) (uid : String)
    (fuel attempts : ℕ) (d : ℚ) (carts : List Cart)
    (hr : resp attempts = TokenResp.approved)
    (hb : (getCartWithProducts uid carts).1.items.isEmpty = true) :
    pollGo resp uid (fuel + 1) attempts d carts
      = ([PollEvent.sleep d, PollEvent.emitCheckoutError, PollEvent.close],
         (getCartWithProducts uid carts).2) := by
  simp [pollGo, hr, hb]

/-- C7 (amended).  The popup initiator, the CIBA chat handler of
part_009 and the standalone checkout tool all validate the cart and fail
fast with the empty-cart outcome before any request is created or prompt
issued.  The live chat route's default `async_checkout` path, however,
performs no cart check before initiating: for every cart — empty
included — the wrapped tool records the pending authorization request
and issues the push prompt, and with an empty cart the emptiness
surfaces only after approval, as a checkout error in the poller. -/
theorem claim_C7 :
    (∀ (uid : String) (carts : List Cart) (popupStore : PopupStore)
       (cibaStore : CibaStore) (now : ℕ) (newId : String)
       (credentials : Option String),
       (getCartWithProducts uid carts).1.items = [] →
       popup_checkout (some uid) carts popupStore now newId
         = (InitOutcome.emptyCart, popupStore, (getCartWithProducts uid carts).2) ∧
       async_checkout (some uid) carts cibaStore now newId
         = (InitOutcome.emptyCart, cibaStore, (getCartWithProducts uid carts).2) ∧
       (asyncCheckoutTool (some uid) carts credentials).1 = ToolOutcome.emptyCartMsg) ∧
    (∀ (uid : String) (carts : List Cart) (store : CibaStore) (now : ℕ)
       (authReqId : String) (resp : ℕ → TokenResp),
       getCibaRequest
           (async_checkout_route (some uid) carts store now authReqId resp).2.1 authReqId
         = some ⟨uid, CibaStatus.pending, now, none⟩ ∧
       ChatEvent.pushPrompt
         ∈ (async_checkout_route (some uid) carts store now authReqId resp).1) ∧
    (∀ (uid : String) (carts : List Cart) (store : CibaStore) (now : ℕ)
       (authReqId : String),
       (getCartWithProducts uid carts).1.items = [] →
       ChatEvent.poll PollEvent.emitCheckoutError
         ∈ (async_checkout_route (some uid) carts store now authReqId
             (fun _ => TokenResp.approved)).1) := by
  refine ⟨?_, ?_, ?_⟩
  · intro uid carts popupStore cibaStore now newId credentials h
    have hb : (getCartWithProducts uid carts).1.items.isEmpty = true := by
      simp [h]
    refine ⟨?_, ?_, ?_⟩
    · simp [popup_checkout, hb]
    · simp [async_checkout, hb]
    · simp [asyncCheckoutTool, hb]
  · intro uid carts store now authReqId resp
    constructor
    · simp [async_checkout_route, withAsyncUserConfirmation_initiate,
        createCibaRequest, getCibaRequest, storeGet_storeSet_self]
    · simp [async_checkout_route]
  · intro uid carts store now authReqId h
    have hb : (getCartWithProducts uid carts).1.items.isEmpty = true := by
      simp [h]
    have key : pollForCompletion (fun _ => TokenResp.approved) uid carts
        = ([PollEvent.sleep 5, PollEvent.emitCheckoutError, PollEvent.close],
           (getCartWithProducts uid carts).2) :=
      pollGo_approved_empty (fun _ => TokenResp.approved) uid 59 0 5 carts rfl hb
    simp [async_checkout_route, key]

/-- C7 counterexample.  On the live route's default `async_checkout`
path with an empty cart, a pending authorization request is stored and
the push prompt is issued — no empty-payload fail-fast happens — and the
empty-cart condition surfaces only after approval, as a checkout
error. -/
theorem claim_C7_counterexample :
    getCibaRequest (async_checkout_route (some "u") [⟨"u", []⟩] [] 0 "auth1"
        (fun _ => TokenResp.approved)).2.1 "auth1"
      = some ⟨"u", CibaStatus.pending, 0, none⟩ ∧
    ChatEvent.pushPrompt ∈ (async_checkout_route (some "u") [⟨"u", []⟩] [] 0 "auth1"
        (fun _ => TokenResp.approved)).1 ∧
    ChatEvent.poll PollEvent.emitCheckoutError
      ∈ (async_checkout_route (some "u") [⟨"u", []⟩] [] 0 "auth1"
          (fun _ => TokenResp.approved)).1 := by
  refine ⟨by decide, by decide, by decide⟩

/-- C7 witness: the amended theorem applied at a signed-in user whose
cart exists but holds no items. -/
theorem claim_C7_witness :
    (popup_checkout (some "u") [⟨"u", []⟩] [] 0 "p9"
        = (InitOutcome.emptyCart, [], (getCartWithProducts "u" [⟨"u", []⟩]).2) ∧
      async_checkout (some "u") [⟨"u", []⟩] [] 0 "p9"
        = (InitOutcome.emptyCart, [], (getCartWithProducts "u" [⟨"u", []⟩]).2) ∧
      (asyncCheckoutTool (some "u") [⟨"u", []⟩] none).1 = ToolOutcome.emptyCartMsg) ∧
    ChatEvent.poll PollEvent.emitCheckoutError
      ∈ (async_checkout_route (some "u") [⟨"u", []⟩] [] 0 "auth1"
          (fun _ => TokenResp.approved)).1 :=
  ⟨claim_C7.1 "u" [⟨"u", []⟩] [] [] 0 "p9" none (by decide),
   claim_C7.2.2 "u" [⟨"u", []⟩] [] 0 "auth1" (by decide)⟩

/-! ## Claim C10 — cart uniqueness invariant -/

/-- `find?` skips over a prefix that contains no match. -/
theorem find?_append_none {α : Type} (p : α → Bool) (l l' : List α)
    (h : l.find? p = none) : (l ++ l').find? p = l'.find? p := by
  simp [List.find?_append, h]

/-- Bumping a quantity does not change the sequence of product ids. -/
theorem bumpFirst_keys (pid : String) (q : ℤ) :
    ∀ items : List CartItem,
      (bumpFirst items pid q).map (fun it => it.productId)
        = items.map (fun it => it.productId) := by
  intro items
  induction items with
  | nil => rfl
  | cons it rest ih =>
    by_cases hb : (it.productId == pid) = true
    · simp [bumpFirst, hb]
    · have hb' : (it.productId == pid) = false := by simpa using hb
      simp [bumpFirst, hb', ih]

/-- A cart line with a given product id exists exactly when that id
occurs among the cart's keys. -/
theorem cartFind_isSome_iff {items : List CartItem} {pid : String} :
    (items.find? (fun it => it.productId == pid)).isSome
      ↔ pid ∈ items.map (fun it => it.productId) := by
  induction items with
  | nil => simp
  | cons it rest ih =>
    by_cases hb : (it.productId == pid) = true
    · have he : it.productId = pid := beq_iff_eq.mp hb
      simp [List.find?, hb, he]
    · have hb' : (it.productId == pid) = false := by simpa using hb
      have hne : it.productId ≠ pid := beq_eq_false_iff_ne.mp hb'
      simp [List.find?, hb', ih, Ne.symm hne]

theorem qtyOf_cons_pos {it : CartItem} {l : List CartItem} {pid : String}
    (h : (it.productId == pid) = true) : qtyOf (it :: l) pid = it.quantity := by
  simp [qtyOf, List.find?, h]

theorem qtyOf_cons_neg {it : CartItem} {l : List CartItem} {pid : String}
    (h : (it.productId == pid) = false) : qtyOf (it :: l) pid = qtyOf l pid := by
  simp [qtyOf, List.find?, h]

/-- Bumping the first line with a present key adds `q` to the quantity
reported for that key. -/
theorem bumpFirst_qty {pid : String} (q : ℤ) :
    ∀ {items : List CartItem}, pid ∈ items.map (fun it => it.productId) →
      qtyOf (bumpFirst items pid q) pid = qtyOf items pid + q := by
  intro items
  induction items with
  | nil => intro h; simp at h
  | cons it rest ih =>
    intro h
    by_cases hb : (it.productId == pid) = true
    · have hb2 : (({ it with quantity := it.quantity + q } : CartItem).productId == pid)
          = true := hb
      simp [bumpFirst, hb, qtyOf_cons_pos hb2, qtyOf_cons_pos hb]
    · have hb' : (it.productId == pid) = false := by simpa using hb
      have hne : it.productId ≠ pid := beq_eq_false_iff_ne.mp hb'
      have hmem : pid ∈ rest.map (fun it => it.productId) := by
        rcases List.mem_cons.mp h with h1 | h1
        · exact absurd h1.symm hne
        · exact h1
      simp [bumpFirst, hb', qtyOf_cons_neg hb', ih hmem]

/-- Replacing one user's items preserves the uniqueness invariant when
the new items have duplicate-free keys. -/
theorem setCart_ok {carts : List Cart} {uid : String} {items : List CartItem}
    (h : CartsOk carts) (hn : (items.map (fun it => it.productId)).Nodup) :
    CartsOk (setCart carts uid items) := by
  induction carts with
  | nil => intro c hc; simp [setCart] at hc
  | cons a t ih =>
    intro c hc
    by_cases ha : (a.userId == uid) = true
    · rw [setCart, if_pos ha] at hc
      rcases List.mem_cons.mp hc with rfl | hc
      · simpa [cartKeys] using hn
      · exact h c (List.mem_cons_of_mem _ hc)
    · have ha' : (a.userId == uid) = false := by simpa using ha
      rw [setCart, ha'] at hc
      simp at hc
      rcases hc with rfl | hc
      · exact h c (List.mem_cons_self _ _)
      · exact ih (fun x hx => h x (List.mem_cons_of_mem _ hx)) c hc

/-- `getCart` preserves the uniqueness invariant. -/
theorem getCart_ok {carts : List Cart} (uid : String) (h : CartsOk carts) :
    CartsOk (getCart uid carts).2 := by
  unfold getCart
  cases hf : carts.find? (fun c => c.userId == uid) with
  | some c => exact h
  | none =>
    intro c hc
    rcases List.mem_append.mp hc with hc | hc
    · exact h c hc
    · simp at hc
      subst hc
      simp [cartKeys]

/-- The cart returned by `getCart` has duplicate-free keys when the
store satisfies the invariant. -/
theorem getCart_fst_nodup {carts : List Cart} (uid : String) (h : CartsOk carts) :
    (cartKeys (getCart uid carts).1).Nodup := by
  unfold getCart
  cases hf : carts.find? (fun c => c.userId == uid) with
  | some c => exact h c (List.mem_of_find?_eq_some hf)
  | none => simp [cartKeys]

/-- After `getCart`, a cart for the user is always findable. -/
theorem getCart_find_isSome (uid : String) (carts : List Cart) :
    ((getCart uid carts).2.find? (fun c => c.userId == uid)).isSome = true := by
  unfold getCart
  cases hf : carts.find? (fun c => c.userId == uid) with
  | some c => simp [hf]
  | none => simp [find?_append_none _ _ _ hf, List.find?]

/-- The entry found after `setCart` carries exactly the new items. -/
theorem find?_setCart (uid : String) (items : List CartItem) :
    ∀ {carts : List Cart}, (carts.find? (fun c => c.userId == uid)).isSome = true →
      ∃ c, (setCart carts uid items).find? (fun c => c.userId == uid) = some c ∧
        c.items = items := by
  intro carts
  induction carts with
  | nil => intro h; simp at h
  | cons a t ih =>
    intro h
    by_cases ha : (a.userId == uid) = true
    · refine ⟨{ a with items := items }, ?_, rfl⟩
      simp [setCart, ha, List.find?]
    · have ha' : (a.userId == uid) = false := by simpa using ha
      have ht : (t.find? (fun c => c.userId == uid)).isSome = true := by
        simpa [List.find?, ha'] using h
      obtain ⟨c, hc, hi⟩ := ih ht
      refine ⟨c, ?_, hi⟩
      simp [setCart, ha', List.find?, hc]

/-- After replacing the user's items, `getCart` reads them back. -/
theorem userItems_setCart {uid : String} {items : List CartItem} {carts : List Cart}
    (h : (carts.find? (fun c => c.userId == uid)).isSome = true) :
    userItems uid (setCart carts uid items) = items := by
  obtain ⟨c, hc, hi⟩ := find?_setCart uid items h
  simp [userItems, getCart, hc, hi]

/-- `addToCart` preserves the uniqueness invariant. -/
theorem addToCart_ok {carts : List Cart} (uid pid : String) (q : ℤ)
    (h : CartsOk carts) : CartsOk (addToCart uid pid q carts).2 := by
  unfold addToCart
  cases hp : findProduct pid with
  | none => exact h
  | some p =>
    simp only
    apply setCart_ok (getCart_ok uid h)
    by_cases hf : (((getCart uid carts).1.items).find?
        (fun it => it.productId == p.id)).isSome = true
    · rw [if_pos hf, bumpFirst_keys]
      exact getCart_fst_nodup uid h
    · rw [if_neg (by simpa using hf)]
      have hnm : p.id ∉ ((getCart uid carts).1.items).map (fun it => it.productId) := by
        intro hm
        exact hf (cartFind_isSome_iff.mpr hm)
      have hnd : (((getCart uid carts).1.items).map (fun it => it.productId)).Nodup :=
        getCart_fst_nodup uid h
      simp [List.nodup_append, hnd, hnm]

/-- `clearCart` preserves the uniqueness invariant. -/
theorem clearCart_ok {carts : List Cart} (uid : String) (h : CartsOk carts) :
    CartsOk (clearCart uid carts).2 := by
  unfold clearCart
  by_cases hf : ((carts.find? (fun c => c.userId == uid)).isSome) = true
  · rw [if_pos hf]
    exact setCart_ok h (by simp)
  · rw [if_neg (by simpa using hf)]
    exact h

/-- Every store operation preserves the uniqueness invariant. -/
theorem runOps_ok : ∀ (ops : List StoreOp) (carts : List Cart),
    CartsOk carts → CartsOk (runOps ops carts) := by
  intro ops
  induction ops with
  | nil => intro carts h; exact h
  | cons op rest ih =>
    intro carts h
    rw [runOps]
    cases op with
    | add uid pid q => exact ih _ (addToCart_ok uid pid q h)
    | clear uid => exact ih _ (clearCart_ok uid h)
    | view uid => exact ih _ (getCart_ok uid h)

/-- The user's items after an `addToCart` that resolved product `p`. -/
theorem addToCart_userItems {uid pid : String} {q : ℤ} {carts : List Cart} {p : Product}
    (hp : findProduct pid = some p) :
    userItems uid (addToCart uid pid q carts).2
      = if (((userItems uid carts).find? (fun it => it.productId == p.id)).isSome) = true
        then bumpFirst (userItems uid carts) p.id q
        else userItems uid carts ++ [⟨p.id, q⟩] := by
  unfold addToCart
  rw [hp]
  simp only
  rw [userItems_setCart (getCart_find_isSome uid carts)]
  rfl

/-- C10.  Carts maintained through the shopping-store operations hold at
most one line per product id: starting from the empty store, every
reachable cart has duplicate-free product keys; an `addToCart` whose
product id (or case-insensitive name) matches no catalog product returns
false and leaves the store untouched; and when the resolved product is
already present in the user's cart, the add bumps that line's quantity
by the requested amount while leaving the sequence of product keys —
in particular the number of lines — unchanged. -/
theorem claim_C10 :
    (∀ ops : List StoreOp, CartsOk (runOps ops [])) ∧
    (∀ (uid pid : String) (q : ℤ) (carts : List Cart),
       findProduct pid = none → addToCart uid pid q carts = (false, carts)) ∧
    (∀ (uid pid : String) (q : ℤ) (carts : List Cart) (p : Product),
       findProduct pid = some p →
       p.id ∈ (userItems uid carts).map (fun it => it.productId) →
       (userItems uid ((addToCart uid pid q carts).2)).map (fun it => it.productId)
           = (userItems uid carts).map (fun it => it.productId) ∧
         qtyOf (userItems uid ((addToCart uid pid q carts).2)) p.id
           = qtyOf (userItems uid carts) p.id + q) := by
  refine ⟨?_, ?_, ?_⟩
  · intro ops
    exact runOps_ok ops [] (fun c hc => absurd hc (List.not_mem_nil c))
  · intro uid pid q carts h
    simp [addToCart, h]
  · intro uid pid q carts p hp hmem
    have hf : (((userItems uid carts).find? (fun it => it.productId == p.id)).isSome)
        = true := cartFind_isSome_iff.mpr hmem
    rw [addToCart_userItems hp, if_pos hf]
    exact ⟨bumpFirst_keys p.id q _, bumpFirst_qty q hmem⟩

/-- C10 counterexample is not needed; this witness applies the theorem at
concrete inputs: an unknown product id leaves the store unchanged, and
adding milk by case-insensitive name to a cart already holding milk keeps
a single line with the summed quantity. -/
theorem claim_C10_witness :
    addToCart "u" "999" 1 cartsOneMilk = (false, cartsOneMilk) ∧
    ((userItems "u" ((addToCart "u" "MILK" 2 cartsOneMilk).2)).map
        (fun it => it.productId) = ["1"] ∧
      qtyOf (userItems "u" ((addToCart "u" "MILK" 2 cartsOneMilk).2)) "1" = 3) := by
  constructor
  · exact claim_C10.2.1 "u" "999" 1 cartsOneMilk (by decide)
  · have h := claim_C10.2.2 "u" "MILK" 2 cartsOneMilk
      ⟨"1", "Milk", "Fresh whole milk, 1 gallon", 3.99⟩ (by rfl) (by decide)
    constructor
    · have h1 := h.1
      simpa [cartsOneMilk, userItems, getCart, cartKeys] using h1
    · have h2 := h.2
      have hq : qtyOf (userItems "u" cartsOneMilk) "1" = 1 := by decide
      rw [hq] at h2
      simpa using h2

end App
